import Mathlib

/-!
Verification of the OneAgent release-notes orchestration service
(src/backend/services/process_oneagent_release_notes.py).

The service class `ProcessOneAgentReleaseNotes` sequences two lookups
against an external LLM completion client:
  step 1 (`_oneagent_latest_version`): build a version prompt, call the
    completion client, and return either the parsed version string or an
    error dict `{"error": msg}`;
  step 2 (`_get_oneagent_release_summary`): build a summary prompt for the
    version, call the completion client, overwrite the parsed record's
    `latestVersion` with the version argument, and return it, or an error
    dict on failure.
`process_dynatrace_release_news` runs step 1, short-circuits with an HTTP
500 JSONResponse when the Python test `"error" in value` holds, otherwise
runs step 2 and applies the same test to its result.

The embedding makes the Python control flow explicit:
  - collaborator behaviour (prompt builders, completion client) is an
    `Env` of outcomes, so each theorem quantifies over all executions;
  - raised exceptions are the `PyExec.raised` constructor; the `try`
    bodies are embedded separately from the `except` wrappers, so the
    blanket-catch discipline is a provable property, not an assumption;
  - every external call is recorded in a trace, so "the summary lookup is
    never invoked" is a statement about the trace;
  - the dynamically-typed Python test `"error" in value` is embedded per
    runtime type of the value: key membership on the error dicts
    (whose sole key is "error", hence `true`), substring containment on
    the plain version string, and `false` on the parsed summary record
    (iterating a pydantic model yields field-name/value pairs, none of
    which equals the bare string "error").
-/

-- --------------------------------------------------------------
-- Substring containment, the semantics of Python `"e" in s` on strings
-- --------------------------------------------------------------

/-- Does the character list starting here begin with `needle`? -/
def charsStart : List Char → List Char → Bool
  | [], _ => true
  | _ :: _, [] => false
  | a :: as, b :: bs => a == b && charsStart as bs

/-- Does `needle` occur as a contiguous run anywhere in the list? -/
def charsSub (needle : List Char) : List Char → Bool
  | [] => needle.isEmpty
  | b :: bs => charsStart needle (b :: bs) || charsSub needle bs

/-- Python string membership: `needle in hay` is substring containment. -/
def strContainsSub (hay needle : String) : Bool :=
  charsSub needle.toList hay.toList

-- --------------------------------------------------------------
-- Data model
-- --------------------------------------------------------------

/-- The structured record parsed by the step-1 completion call; the source
reads its `version` field (line 77). Modelled from the spec: the module
`src/backend/services/data_models.py` that declares it is not in the
sources; the spec describes LatestVersion as a record with a string
version token. -/
structure ComponentLatestReleaseVersion where
  version : String
deriving Repr, DecidableEq

/-- The structured record parsed by the step-2 completion call; the source
assigns its `latestVersion` field (line 105). Modelled from the spec: the
module `src/backend/services/data_models.py` that declares it is not in
the sources; the spec describes ReleaseSummary as a record with at least
a `latestVersion` field and a natural-language `summary` field. -/
structure ComponentLatestReleaseSummary where
  latestVersion : String
  summary : String
deriving Repr, DecidableEq

/-- Result of a Python call: either a normal return or a raised
exception carrying its description `str(e)`. -/
inductive PyExec (α : Type) where
  | raised (msg : String)
  | returns (a : α)
deriving Repr, DecidableEq

/-- A value returned by `_oneagent_latest_version`: either the dict
literal `\x7b"error": msg\x7d` or the plain string `result.version`. -/
inductive VersionResult where
  | errorDict (msg : String)
  | ok (v : String)
deriving Repr, DecidableEq

/-- A value returned by `_get_oneagent_release_summary`: either the dict
literal `\x7b"error": msg\x7d` or the parsed summary record. -/
inductive SummaryResult where
  | errorDict (msg : String)
  | ok (s : ComponentLatestReleaseSummary)
deriving Repr, DecidableEq

/-- The JSON content handed to `JSONResponse(status_code=500, ...)`:
either an error dict, or (when step 1's plain version string passes the
`"error" in value` test) that bare string. -/
inductive Json500Content where
  | errorDict (msg : String)
  | bareStr (v : String)
deriving Repr, DecidableEq

/-- What `process_dynatrace_release_news` returns normally: an HTTP 500
JSONResponse or the successful summary record. -/
inductive ProcResult where
  | jsonResponse500 (content : Json500Content)
  | success (s : ComponentLatestReleaseSummary)
deriving Repr, DecidableEq

-- --------------------------------------------------------------
-- External collaborators
-- --------------------------------------------------------------

/-- Outcome of one `openai_client.responses.parse` call: a raised fault,
a response whose `output_parsed` is None, or a parsed record. -/
inductive CallOutcome (α : Type) where
  | raises (msg : String)
  | noParse
  | parsed (a : α)

/-- One external call made by the service, as recorded in the trace. -/
inductive ExtCall where
  | versionPromptCall
  | versionCompletionCall (prompt : String)
  | summaryPromptCall (version : String)
  | summaryCompletionCall (prompt : String)
deriving Repr, DecidableEq

/-- One execution's collaborator behaviour: whether the injected client
handle is truthy, what each prompt builder does (`Except.error e` embeds a
raised fault), and what the completion client does on each prompt. -/
structure Env where
  clientConfigured : Bool
  versionPrompt : Except String String
  versionCompletion : String → CallOutcome ComponentLatestReleaseVersion
  summaryPrompt : String → Except String String
  summaryCompletion : String → CallOutcome ComponentLatestReleaseSummary

-- --------------------------------------------------------------
-- The service, embedded
-- --------------------------------------------------------------

/-- The `try` body of `_oneagent_latest_version` (lines 62-77): build the
version prompt, call the completion client, test `output_parsed`, and on
success return the plain string `result.version`. Faults from the prompt
builder or the client surface as `PyExec.raised`. -/
def version_try_body (env : Env) : PyExec VersionResult × List ExtCall :=
  match env.versionPrompt with
  | Except.error e => (PyExec.raised e, [ExtCall.versionPromptCall])
  | Except.ok p =>
    match env.versionCompletion p with
    | CallOutcome.raises e =>
        (PyExec.raised e, [ExtCall.versionPromptCall, ExtCall.versionCompletionCall p])
    | CallOutcome.noParse =>
        (PyExec.returns (VersionResult.errorDict "Failed to extract the latest OneAgent version."),
         [ExtCall.versionPromptCall, ExtCall.versionCompletionCall p])
    | CallOutcome.parsed r =>
        (PyExec.returns (VersionResult.ok r.version),
         [ExtCall.versionPromptCall, ExtCall.versionCompletionCall p])

/-- `_oneagent_latest_version` (lines 57-80): the configuration guard
(line 59) runs before any call; the `except Exception as e` wrapper
(lines 79-80) converts every raised fault into `\x7b"error": str(e)\x7d`. -/
def oneagent_latest_version (env : Env) : PyExec VersionResult × List ExtCall :=
  if env.clientConfigured = false then
    (PyExec.returns (VersionResult.errorDict "OpenAI API key not configured."), [])
  else
    match version_try_body env with
    | (PyExec.raised e, t) => (PyExec.returns (VersionResult.errorDict e), t)
    | (PyExec.returns v, t) => (PyExec.returns v, t)

/-- `_get_oneagent_latest_version` (lines 53-55): delegates. -/
def get_oneagent_latest_version (env : Env) : PyExec VersionResult × List ExtCall :=
  oneagent_latest_version env

/-- The `try` body of `_get_oneagent_release_summary` (lines 88-106):
build the summary prompt for `version`, call the completion client, test
`output_parsed`, then overwrite `result.latestVersion = version` before
returning the record. -/
def summary_try_body (env : Env) (version : String) :
    PyExec SummaryResult × List ExtCall :=
  match env.summaryPrompt version with
  | Except.error e => (PyExec.raised e, [ExtCall.summaryPromptCall version])
  | Except.ok p =>
    match env.summaryCompletion p with
    | CallOutcome.raises e =>
        (PyExec.raised e, [ExtCall.summaryPromptCall version, ExtCall.summaryCompletionCall p])
    | CallOutcome.noParse =>
        (PyExec.returns (SummaryResult.errorDict "Failed to get summary from OpenAI."),
         [ExtCall.summaryPromptCall version, ExtCall.summaryCompletionCall p])
    | CallOutcome.parsed r =>
        (PyExec.returns (SummaryResult.ok { r with latestVersion := version }),
         [ExtCall.summaryPromptCall version, ExtCall.summaryCompletionCall p])

/-- `_get_oneagent_release_summary` (lines 86-109): the `except Exception
as e` wrapper (lines 108-109) converts every raised fault into
`\x7b"error": str(e)\x7d`. -/
def get_oneagent_release_summary (env : Env) (version : String) :
    PyExec SummaryResult × List ExtCall :=
  match summary_try_body env version with
  | (PyExec.raised e, t) => (PyExec.returns (SummaryResult.errorDict e), t)
  | (PyExec.returns v, t) => (PyExec.returns v, t)

/-- Python `"error" in value` on a step-1 result: on the dict literal
`\x7b"error": msg\x7d` it is key membership and holds; on the plain
version string it is substring containment. -/
def pyContainsError : VersionResult → Bool
  | VersionResult.errorDict _ => true
  | VersionResult.ok v => strContainsSub v "error"

/-- Python `"error" in value` on a step-2 result: key membership on the
error dict; on the parsed pydantic record, iteration yields
field-name/value pairs, none equal to the string "error", so it is false. -/
def pyContainsSummaryError : SummaryResult → Bool
  | SummaryResult.errorDict _ => true
  | SummaryResult.ok _ => false

/-- The JSON content of the line-41 `JSONResponse`: the step-1 value is
passed through as-is. -/
def versionFailContent : VersionResult → Json500Content
  | VersionResult.errorDict m => Json500Content.errorDict m
  | VersionResult.ok v => Json500Content.bareStr v

/-- `process_dynatrace_release_news` (lines 35-47). The line-40 test
`"error" in one_agent_latest_version` and the line-44 test
`"error" in summary_result` are each split over the runtime type of the
tested value, per `pyContainsError` and `pyContainsSummaryError`; a raise
from either step (none occurs, see the catch wrappers) would propagate,
since this method has no handler of its own. -/
def process_dynatrace_release_news (env : Env) : PyExec ProcResult × List ExtCall :=
  match get_oneagent_latest_version env with
  | (PyExec.raised e, t1) => (PyExec.raised e, t1)
  | (PyExec.returns v1, t1) =>
    match v1 with
    | VersionResult.errorDict m =>
        -- "error" in the dict: its sole key is "error", membership holds
        (PyExec.returns (ProcResult.jsonResponse500 (Json500Content.errorDict m)), t1)
    | VersionResult.ok v =>
        if strContainsSub v "error" then
          -- "error" in the version string: substring containment holds
          (PyExec.returns (ProcResult.jsonResponse500 (Json500Content.bareStr v)), t1)
        else
          match get_oneagent_release_summary env v with
          | (PyExec.raised e, t2) => (PyExec.raised e, t1 ++ t2)
          | (PyExec.returns (SummaryResult.errorDict m), t2) =>
              (PyExec.returns (ProcResult.jsonResponse500 (Json500Content.errorDict m)), t1 ++ t2)
          | (PyExec.returns (SummaryResult.ok s), t2) =>
              (PyExec.returns (ProcResult.success s), t1 ++ t2)

-- --------------------------------------------------------------
-- Observations on values and traces
-- --------------------------------------------------------------

/-- Is this external call part of the summary lookup (step 2)? -/
def isSummaryCall : ExtCall → Bool
  | ExtCall.summaryPromptCall _ => true
  | ExtCall.summaryCompletionCall _ => true
  | _ => false

/-- Did the trace invoke any part of the summary lookup? -/
def summaryInvoked (t : List ExtCall) : Bool :=
  t.any isSummaryCall

/-- The Python dict keys of a step-1 value: the error dict literal has the
single key "error"; a plain string has no keys. -/
def versionValueKeys : VersionResult → List String
  | VersionResult.errorDict _ => ["error"]
  | VersionResult.ok _ => []

/-- The field names of a step-2 value: the error dict literal has the
single key "error"; the summary record has the schema's fields. -/
def summaryValueKeys : SummaryResult → List String
  | SummaryResult.errorDict _ => ["error"]
  | SummaryResult.ok _ => ["latestVersion", "summary"]

/-- Is the 500-response content a record with the single `error` field? -/
def contentIsErrorRecord : Json500Content → Bool
  | Json500Content.errorDict _ => true
  | Json500Content.bareStr _ => false

-- --------------------------------------------------------------
-- Concrete executions used by witnesses and counterexamples
-- --------------------------------------------------------------

/-- A fully successful execution: version "1.2.3", summary parsed with a
stale latestVersion. -/
def envOk : Env :=
  { clientConfigured := true
    versionPrompt := Except.ok "vp"
    versionCompletion := fun _ => CallOutcome.parsed { version := "1.2.3" }
    summaryPrompt := fun _ => Except.ok "sp"
    summaryCompletion := fun _ =>
      CallOutcome.parsed { latestVersion := "unset", summary := "Improved X" } }

/-- An execution with an unconfigured (falsy) client handle. -/
def envNoClient : Env :=
  { envOk with clientConfigured := false }

/-- An execution whose version completion call raises "boom". -/
def envVersionRaise : Env :=
  { envOk with versionCompletion := fun _ => CallOutcome.raises "boom" }

/-- An execution whose version completion call parses to None. -/
def envVersionNoParse : Env :=
  { envOk with versionCompletion := fun _ => CallOutcome.noParse }

/-- An execution whose summary completion call raises "summary boom". -/
def envSummaryRaise : Env :=
  { envOk with summaryCompletion := fun _ => CallOutcome.raises "summary boom" }

/-- An execution whose summary completion call parses to None. -/
def envSummaryNoParse : Env :=
  { envOk with summaryCompletion := fun _ => CallOutcome.noParse }

/-- A successful version lookup whose version string contains "error". -/
def envErrVer : Env :=
  { envOk with versionCompletion := fun _ =>
      CallOutcome.parsed { version := "1.2.3-error-fix" } }

/-- Another successful version lookup containing "error", for C8. -/
def envErrVer2 : Env :=
  { envOk with versionCompletion := fun _ =>
      CallOutcome.parsed { version := "2.error.1" } }

/-- Another successful version lookup containing "error", for C9. -/
def envErrVer3 : Env :=
  { envOk with versionCompletion := fun _ =>
      CallOutcome.parsed { version := "7.error.0" } }

/-- Another successful version lookup containing "error", for C10. -/
def envErrVer10 : Env :=
  { envOk with versionCompletion := fun _ =>
      CallOutcome.parsed { version := "9.9.error" } }
-- helper lemmas

theorem summary_ok_latestVersion (env : Env) (version : String)
    (s : ComponentLatestReleaseSummary)
    (h : (get_oneagent_release_summary env version).1
          = PyExec.returns (SummaryResult.ok s)) :
    s.latestVersion = version := by
  unfold get_oneagent_release_summary summary_try_body at h
  cases hp : env.summaryPrompt version with
  | error e => simp [hp] at h
  | ok p =>
    cases hc : env.summaryCompletion p with
    | raises e => simp [hp, hc] at h
    | noParse => simp [hp, hc] at h
    | parsed r =>
      simp [hp, hc] at h
      rw [← h]

theorem step1_pair_no_raise (env : Env) :
    ∃ v t, oneagent_latest_version env = (PyExec.returns v, t) := by
  unfold oneagent_latest_version
  by_cases hc : env.clientConfigured = false
  · simp [hc]
  · cases hb : version_try_body env with
    | mk r t =>
      cases r with
      | raised e => simp [hc, hb]
      | returns v => simp [hc, hb]

theorem step2_pair_no_raise (env : Env) (version : String) :
    ∃ v t, get_oneagent_release_summary env version = (PyExec.returns v, t) := by
  unfold get_oneagent_release_summary
  cases hb : summary_try_body env version with
  | mk r t =>
    cases r with
    | raised e => simp
    | returns v => simp

theorem step1_trace_no_summary (env : Env) :
    summaryInvoked (oneagent_latest_version env).2 = false := by
  unfold oneagent_latest_version version_try_body
  by_cases hc : env.clientConfigured = false
  · simp [hc, summaryInvoked]
  · cases hp : env.versionPrompt with
    | error e => simp [hc, hp, summaryInvoked, isSummaryCall]
    | ok p =>
      cases hcc : env.versionCompletion p with
      | raises e => simp [hc, hp, hcc, summaryInvoked, isSummaryCall]
      | noParse => simp [hc, hp, hcc, summaryInvoked, isSummaryCall]
      | parsed r => simp [hc, hp, hcc, summaryInvoked, isSummaryCall]

theorem step2_trace_has_summary (env : Env) (version : String) :
    summaryInvoked (get_oneagent_release_summary env version).2 = true := by
  unfold get_oneagent_release_summary summary_try_body
  cases hp : env.summaryPrompt version with
  | error e => simp [hp, summaryInvoked, isSummaryCall]
  | ok p =>
    cases hcc : env.summaryCompletion p with
    | raises e => simp [hp, hcc, summaryInvoked, isSummaryCall]
    | noParse => simp [hp, hcc, summaryInvoked, isSummaryCall]
    | parsed r => simp [hp, hcc, summaryInvoked, isSummaryCall]

theorem summary_fault_result (env : Env) (version e : String)
    (hr : env.summaryPrompt version = Except.error e ∨
          ∃ p, env.summaryPrompt version = Except.ok p ∧
               env.summaryCompletion p = CallOutcome.raises e) :
    (get_oneagent_release_summary env version).1
      = PyExec.returns (SummaryResult.errorDict e) := by
  unfold get_oneagent_release_summary summary_try_body
  cases hr with
  | inl h => simp [h]
  | inr h =>
    obtain ⟨p, hp, hc⟩ := h
    simp [hp, hc]

/-- C1: whenever the version lookup succeeds with version v and the whole
pipeline returns a success record s, the overwrite at line 105 forces
s.latestVersion = v, whatever latestVersion the parsed record held. -/
theorem C1_latestVersion_overwrite (env : Env) (v : String)
    (s : ComponentLatestReleaseSummary)
    (hv : (get_oneagent_latest_version env).1
          = PyExec.returns (VersionResult.ok v))
    (hs : (process_dynatrace_release_news env).1
          = PyExec.returns (ProcResult.success s)) :
    s.latestVersion = v := by
  unfold process_dynatrace_release_news at hs
  cases hpair : get_oneagent_latest_version env with
  | mk r1 t1 =>
    rw [hpair] at hs hv
    simp at hv
    subst hv
    simp at hs
    by_cases hsub : strContainsSub v "error" = true
    · simp [hsub] at hs
    · simp [hsub] at hs
      cases hq : get_oneagent_release_summary env v with
      | mk r2 t2 =>
        rw [hq] at hs
        cases r2 with
        | raised e => simp at hs
        | returns v2 =>
          cases v2 with
          | errorDict m => simp at hs
          | ok s2 =>
            simp at hs
            have h3 := summary_ok_latestVersion env v s2 (by rw [hq])
            rw [← hs]
            exact h3

/-- C1 witness: at envOk the version lookup returns "1.2.3" and the
returned summary carries latestVersion "1.2.3". -/
theorem C1_latestVersion_overwrite_witness :
    ComponentLatestReleaseSummary.latestVersion
      { latestVersion := "1.2.3", summary := "Improved X" } = "1.2.3" :=
  C1_latestVersion_overwrite envOk "1.2.3"
    { latestVersion := "1.2.3", summary := "Improved X" } rfl rfl

/-- C2 counterexample: at envErrVer step 1 succeeds with the plain string
"1.2.3-error-fix", a value with no `error` key at all, yet the pipeline
treats it as a failure signal: it short-circuits with a 500 carrying the
bare string and never invokes the summary lookup — refuting the claim
that only values containing an `error` key are treated as failures and
that every successful step-1 version string proceeds to step 2. -/
theorem C2_counterexample :
    (get_oneagent_latest_version envErrVer).1
        = PyExec.returns (VersionResult.ok "1.2.3-error-fix") ∧
    (versionValueKeys (VersionResult.ok "1.2.3-error-fix")).contains "error"
        = false ∧
    (process_dynatrace_release_news envErrVer).1
        = PyExec.returns (ProcResult.jsonResponse500
            (Json500Content.bareStr "1.2.3-error-fix")) ∧
    summaryInvoked (process_dynatrace_release_news envErrVer).2 = false :=
  ⟨rfl, rfl, rfl, rfl⟩

/-- C2 amended: a step-1 value short-circuits the pipeline with a 500
exactly when the Python membership test succeeds on it — key membership
(always true) on the error dicts, substring containment on the plain
version string — and otherwise the pipeline invokes the summary lookup;
a parsed summary record is then returned as success and a step-2 error
dict becomes a 500. -/
theorem C2_amended_membership (env : Env) (v1 : VersionResult)
    (t1 : List ExtCall)
    (h : get_oneagent_latest_version env = (PyExec.returns v1, t1)) :
    (pyContainsError v1 = true →
        (process_dynatrace_release_news env).1
          = PyExec.returns (ProcResult.jsonResponse500 (versionFailContent v1)) ∧
        summaryInvoked (process_dynatrace_release_news env).2 = false) ∧
    (pyContainsError v1 = false →
        summaryInvoked (process_dynatrace_release_news env).2 = true) ∧
    (∀ v s t2, v1 = VersionResult.ok v → strContainsSub v "error" = false →
        get_oneagent_release_summary env v
          = (PyExec.returns (SummaryResult.ok s), t2) →
        (process_dynatrace_release_news env).1
          = PyExec.returns (ProcResult.success s)) ∧
    (∀ v m t2, v1 = VersionResult.ok v → strContainsSub v "error" = false →
        get_oneagent_release_summary env v
          = (PyExec.returns (SummaryResult.errorDict m), t2) →
        (process_dynatrace_release_news env).1
          = PyExec.returns (ProcResult.jsonResponse500
              (Json500Content.errorDict m))) := by
  have hns : summaryInvoked t1 = false := by
    have h0 := step1_trace_no_summary env
    rw [show oneagent_latest_version env = (PyExec.returns v1, t1) from h] at h0
    exact h0
  refine ⟨?_, ?_, ?_, ?_⟩
  · intro hpy
    unfold process_dynatrace_release_news
    rw [h]
    cases v1 with
    | errorDict m => simp [versionFailContent, hns]
    | ok v =>
      simp [pyContainsError] at hpy
      simp [hpy, versionFailContent, hns]
  · intro hpy
    cases v1 with
    | errorDict m => simp [pyContainsError] at hpy
    | ok v =>
      simp [pyContainsError] at hpy
      unfold process_dynatrace_release_news
      rw [h]
      simp [hpy]
      obtain ⟨v2, t2, hq⟩ := step2_pair_no_raise env v
      have h2 := step2_trace_has_summary env v
      rw [hq] at h2
      simp at h2
      rw [hq]
      cases v2 with
      | errorDict m => simp [summaryInvoked] at hns h2 ⊢ ; exact Or.inr h2
      | ok s => simp [summaryInvoked] at hns h2 ⊢ ; exact Or.inr h2
  · intro v s t2 hv1 hsub hq
    subst hv1
    unfold process_dynatrace_release_news
    rw [h]
    simp [hsub, hq]
  · intro v m t2 hv1 hsub hq
    subst hv1
    unfold process_dynatrace_release_news
    rw [h]
    simp [hsub, hq]

/-- C2 amended witness: at envOk step 1 returns "1.2.3", the membership
test fails on it, and the summary lookup is invoked. -/
theorem C2_amended_membership_witness :
    summaryInvoked (process_dynatrace_release_news envOk).2 = true :=
  (C2_amended_membership envOk (VersionResult.ok "1.2.3")
      [ExtCall.versionPromptCall, ExtCall.versionCompletionCall "vp"]
      rfl).2.1 (by decide)

/-- C3: with an unconfigured (falsy) client handle the pipeline returns a
500 with the descriptive error dict and the call trace is empty: neither
prompt builder nor completion client is invoked. -/
theorem C3_unconfigured (env : Env) (h : env.clientConfigured = false) :
    process_dynatrace_release_news env
      = (PyExec.returns (ProcResult.jsonResponse500
          (Json500Content.errorDict "OpenAI API key not configured.")), []) := by
  unfold process_dynatrace_release_news get_oneagent_latest_version
    oneagent_latest_version
  simp [h]

/-- C3 witness: the unconfigured execution envNoClient. -/
theorem C3_unconfigured_witness :
    process_dynatrace_release_news envNoClient
      = (PyExec.returns (ProcResult.jsonResponse500
          (Json500Content.errorDict "OpenAI API key not configured.")), []) :=
  C3_unconfigured envNoClient rfl

/-- C4: when the version lookup raises a fault e (from the prompt builder
or the completion call), the pipeline returns a 500 whose error message
is str(e) and the summary lookup is never invoked. -/
theorem C4_version_fault (env : Env) (e : String)
    (hcfg : env.clientConfigured = true)
    (hr : env.versionPrompt = Except.error e ∨
          ∃ p, env.versionPrompt = Except.ok p ∧
               env.versionCompletion p = CallOutcome.raises e) :
    (process_dynatrace_release_news env).1
      = PyExec.returns (ProcResult.jsonResponse500
          (Json500Content.errorDict e)) ∧
    summaryInvoked (process_dynatrace_release_news env).2 = false := by
  unfold process_dynatrace_release_news get_oneagent_latest_version
    oneagent_latest_version version_try_body
  cases hr with
  | inl h => simp [hcfg, h, summaryInvoked, isSummaryCall]
  | inr h =>
    obtain ⟨p, hp, hc⟩ := h
    simp [hcfg, hp, hc, summaryInvoked, isSummaryCall]

/-- C4 witness: envVersionRaise, whose version completion raises "boom". -/
theorem C4_version_fault_witness :
    (process_dynatrace_release_news envVersionRaise).1
      = PyExec.returns (ProcResult.jsonResponse500
          (Json500Content.errorDict "boom")) ∧
    summaryInvoked (process_dynatrace_release_news envVersionRaise).2 = false :=
  C4_version_fault envVersionRaise "boom" rfl (Or.inr ⟨"vp", rfl, rfl⟩)

/-- C5: when the version completion succeeds but output_parsed is None,
the pipeline returns a 500 with exactly the fixed message and the summary
lookup is skipped. -/
theorem C5_noparse_fixed_message (env : Env) (p : String)
    (hcfg : env.clientConfigured = true)
    (hp : env.versionPrompt = Except.ok p)
    (hc : env.versionCompletion p = CallOutcome.noParse) :
    (process_dynatrace_release_news env).1
      = PyExec.returns (ProcResult.jsonResponse500
          (Json500Content.errorDict
            "Failed to extract the latest OneAgent version.")) ∧
    summaryInvoked (process_dynatrace_release_news env).2 = false := by
  unfold process_dynatrace_release_news get_oneagent_latest_version
    oneagent_latest_version version_try_body
  simp [hcfg, hp, hc, summaryInvoked, isSummaryCall]

/-- C5 witness: envVersionNoParse, whose version completion parses None. -/
theorem C5_noparse_fixed_message_witness :
    (process_dynatrace_release_news envVersionNoParse).1
      = PyExec.returns (ProcResult.jsonResponse500
          (Json500Content.errorDict
            "Failed to extract the latest OneAgent version.")) ∧
    summaryInvoked (process_dynatrace_release_news envVersionNoParse).2 = false :=
  C5_noparse_fixed_message envVersionNoParse "vp" rfl rfl rfl

/-- C6: when the summary lookup raises a fault e (from the prompt builder
or the completion call), the pipeline returns a 500 whose error message
is str(e). -/
theorem C6_summary_fault (env : Env) (v e : String)
    (h1 : (get_oneagent_latest_version env).1
          = PyExec.returns (VersionResult.ok v))
    (h2 : strContainsSub v "error" = false)
    (hr : env.summaryPrompt v = Except.error e ∨
          ∃ p, env.summaryPrompt v = Except.ok p ∧
               env.summaryCompletion p = CallOutcome.raises e) :
    (process_dynatrace_release_news env).1
      = PyExec.returns (ProcResult.jsonResponse500
          (Json500Content.errorDict e)) := by
  unfold process_dynatrace_release_news
  cases hpair : get_oneagent_latest_version env with
  | mk r1 t1 =>
    rw [hpair] at h1
    simp at h1
    subst h1
    simp [h2]
    have hs := summary_fault_result env v e hr
    cases hq : get_oneagent_release_summary env v with
    | mk r2 t2 =>
      rw [hq] at hs
      simp at hs
      subst hs
      simp

/-- C6 witness: envSummaryRaise, whose summary completion raises
"summary boom". -/
theorem C6_summary_fault_witness :
    (process_dynatrace_release_news envSummaryRaise).1
      = PyExec.returns (ProcResult.jsonResponse500
          (Json500Content.errorDict "summary boom")) :=
  C6_summary_fault envSummaryRaise "1.2.3" "summary boom" rfl (by decide)
    (Or.inr ⟨"sp", rfl, rfl⟩)

/-- C7: no collaborator fault ever propagates out of the pipeline: for
every execution, process_dynatrace_release_news returns normally (the
caller sees a success record or a 500 failure value, never a raise). -/
theorem C7_no_fault_propagation (env : Env) :
    ∃ r, (process_dynatrace_release_news env).1 = PyExec.returns r := by
  unfold process_dynatrace_release_news get_oneagent_latest_version
  obtain ⟨v1, t1, h1⟩ := step1_pair_no_raise env
  rw [h1]
  cases v1 with
  | errorDict m => simp
  | ok v =>
    by_cases hsub : strContainsSub v "error" = true
    · simp [hsub]
    · simp [hsub]
      obtain ⟨v2, t2, hq⟩ := step2_pair_no_raise env v
      rw [hq]
      cases v2 with
      | errorDict m => simp
      | ok s => simp

/-- C8 counterexample: at envErrVer2 the pipeline fails (HTTP 500) but
the JSON body is the bare version string "2.error.1", not a record with
a single error field — refuting the claim that every failure body is such
a record. -/
theorem C8_counterexample :
    (process_dynatrace_release_news envErrVer2).1
      = PyExec.returns (ProcResult.jsonResponse500
          (Json500Content.bareStr "2.error.1")) ∧
    contentIsErrorRecord (Json500Content.bareStr "2.error.1") = false :=
  ⟨rfl, rfl⟩

/-- C8 amended: every failure surfaces as a 500 whose body is either a
record with the single error field, or — when step 1 succeeded with a
version string containing the substring "error" — that bare string; and
no failing execution returns a success record (no partial results). -/
theorem C8_amended_failure_shape (env : Env) (c : Json500Content)
    (h : (process_dynatrace_release_news env).1
          = PyExec.returns (ProcResult.jsonResponse500 c)) :
    (contentIsErrorRecord c = true ∨
      ∃ v, c = Json500Content.bareStr v ∧ strContainsSub v "error" = true ∧
        (get_oneagent_latest_version env).1
          = PyExec.returns (VersionResult.ok v)) ∧
    (∀ s, ProcResult.jsonResponse500 c ≠ ProcResult.success s) := by
  constructor
  · unfold process_dynatrace_release_news at h
    cases hpair : get_oneagent_latest_version env with
    | mk r1 t1 =>
      rw [hpair] at h
      cases r1 with
      | raised e => simp at h
      | returns v1 =>
        cases v1 with
        | errorDict m =>
          simp at h
          subst h
          left
          rfl
        | ok v =>
          by_cases hsub : strContainsSub v "error" = true
          · simp [hsub] at h
            subst h
            right
            exact ⟨v, rfl, hsub, rfl⟩
          · simp [hsub] at h
            cases hq : get_oneagent_release_summary env v with
            | mk r2 t2 =>
              rw [hq] at h
              cases r2 with
              | raised e => simp at h
              | returns v2 =>
                cases v2 with
                | errorDict m =>
                  simp at h
                  subst h
                  left
                  rfl
                | ok s => simp at h
  · intro s hcontra
    exact ProcResult.noConfusion hcontra

/-- C8 amended witness: the summary-noParse execution fails with the
fixed error record, which satisfies the amended shape. -/
theorem C8_amended_failure_shape_witness :
    (contentIsErrorRecord
        (Json500Content.errorDict "Failed to get summary from OpenAI.") = true ∨
      ∃ v, Json500Content.errorDict "Failed to get summary from OpenAI."
            = Json500Content.bareStr v ∧
        strContainsSub v "error" = true ∧
        (get_oneagent_latest_version envSummaryNoParse).1
          = PyExec.returns (VersionResult.ok v)) ∧
    (∀ s, ProcResult.jsonResponse500
        (Json500Content.errorDict "Failed to get summary from OpenAI.")
      ≠ ProcResult.success s) :=
  C8_amended_failure_shape envSummaryNoParse
    (Json500Content.errorDict "Failed to get summary from OpenAI.") rfl

/-- C9 counterexample: at envErrVer3 step 1 succeeds with "7.error.0", a
value with no error key, yet the membership test used between the steps
classifies it as a failure and the pipeline 500s — so key-exclusivity of
the shapes does not make the error-detection convention unambiguous. -/
theorem C9_counterexample :
    (get_oneagent_latest_version envErrVer3).1
      = PyExec.returns (VersionResult.ok "7.error.0") ∧
    (versionValueKeys (VersionResult.ok "7.error.0")).contains "error"
      = false ∧
    pyContainsError (VersionResult.ok "7.error.0") = true ∧
    (process_dynatrace_release_news envErrVer3).1
      = PyExec.returns (ProcResult.jsonResponse500
          (Json500Content.bareStr "7.error.0")) :=
  ⟨rfl, rfl, rfl, rfl⟩

/-- C9 amended: every error value of either step has exactly the key
"error" and every success value has no error key; the membership test
agrees with the error shape on error dicts and on parsed summary records,
but on the step-1 version string it is substring containment, so it only
classifies correctly the version strings not containing "error". -/
theorem C9_amended_shapes :
    (∀ m, versionValueKeys (VersionResult.errorDict m) = ["error"]) ∧
    (∀ v, (versionValueKeys (VersionResult.ok v)).contains "error" = false) ∧
    (∀ m, summaryValueKeys (SummaryResult.errorDict m) = ["error"]) ∧
    (∀ s, (summaryValueKeys (SummaryResult.ok s)).contains "error" = false) ∧
    (∀ m, pyContainsError (VersionResult.errorDict m) = true) ∧
    (∀ s, pyContainsSummaryError (SummaryResult.ok s) = false) ∧
    (∀ v, strContainsSub v "error" = false →
        pyContainsError (VersionResult.ok v) = false) := by
  refine ⟨fun m => rfl, fun v => rfl, fun m => rfl, fun s => rfl,
    fun m => rfl, fun s => rfl, fun v h => ?_⟩
  simp [pyContainsError, h]

/-- C9 amended witness: the membership test correctly classifies the
error-free version string "1.2.3" as a success. -/
theorem C9_amended_shapes_witness :
    pyContainsError (VersionResult.ok "1.2.3") = false :=
  C9_amended_shapes.2.2.2.2.2.2 "1.2.3" (by decide)

/-- C10: when step 1 succeeds with a version string containing the
substring "error", the pipeline short-circuits with a 500 whose body is
that bare string, and the summary lookup is never invoked. -/
theorem C10_error_substring_shortcircuit (env : Env) (v : String)
    (h1 : (get_oneagent_latest_version env).1
          = PyExec.returns (VersionResult.ok v))
    (h2 : strContainsSub v "error" = true) :
    (process_dynatrace_release_news env).1
      = PyExec.returns (ProcResult.jsonResponse500
          (Json500Content.bareStr v)) ∧
    summaryInvoked (process_dynatrace_release_news env).2 = false := by
  unfold process_dynatrace_release_news
  cases hpair : get_oneagent_latest_version env with
  | mk r1 t1 =>
    have hns := step1_trace_no_summary env
    rw [show oneagent_latest_version env = (r1, t1) from hpair] at hns
    simp at hns
    rw [hpair] at h1
    simp at h1
    subst h1
    simp [h2]
    exact hns

/-- C10 witness: envErrVer10, whose version lookup yields "9.9.error". -/
theorem C10_error_substring_shortcircuit_witness :
    (process_dynatrace_release_news envErrVer10).1
      = PyExec.returns (ProcResult.jsonResponse500
          (Json500Content.bareStr "9.9.error")) ∧
    summaryInvoked (process_dynatrace_release_news envErrVer10).2 = false :=
  C10_error_substring_shortcircuit envErrVer10 "9.9.error" rfl (by decide)
